import Mathlib

/-!
Verification of `autorefresh.py`: a shallow embedding of the generation
counter, the SIGHUP handler, the `/refresh` event-stream loop and the
`do_GET` route dispatch, together with theorems settling the spec claims.
-/

namespace Autorefresh

/-- Python exceptions relevant to the handler: `BrokenPipeError` raised by a
write to a disconnected peer, and `OSError` raised by `open`/read failures. -/
inductive PyError
  | brokenPipe
  | osError
deriving DecidableEq

/-- Source: `REFRESH_ID_MAX = 2 ** 16`. -/
def REFRESH_ID_MAX : Nat := 2 ^ 16

/-- Source: `refreshId = 0` (module-level initial value). -/
def refreshId0 : Nat := 0

/-- Source: `handleSighup`, body `refreshId = (refreshId + 1) % REFRESH_ID_MAX`
(the `notify_all` wake is modelled by the wait events below). -/
def handleSighup (refreshId : Nat) : Nat := (refreshId + 1) % REFRESH_ID_MAX

/-- The generation after `n` SIGHUP triggers starting from the initial value. -/
def runTriggers : Nat → Nat
  | 0 => refreshId0
  | n + 1 => handleSighup (runTriggers n)

/-- One return from `refreshCond.wait(timeout=60)`: either the 60s timeout
expired (`wait` returned `False`), or the thread was woken with the global
`refreshId` now holding `id` (notification or spurious wakeup). -/
inductive WaitEv
  | timeout
  | notified (id : Nat)
deriving DecidableEq

/-- Source: the literal timeout passed in `refreshCond.wait(timeout=60)`. -/
def condWaitTimeout : Nat := 60

/-- Source: the inner wait loop of `FileHandler.handleRefresh`:
```
while refreshId <= lastMsgId:
    isTimeout = not refreshCond.wait(timeout=60)
    if isTimeout:
        break
```
`cur` is the currently observed `refreshId` (the check happens under the
lock, so it is the value seen at the latest wakeup); the event list supplies
the successive `wait` outcomes.  Returns `some (isTimeout, refreshId)` when
the loop exits, `none` when the modelled events are exhausted while the
thread is still blocked. -/
def condWaitLoop (lastMsgId : Nat) : Nat → List WaitEv → Option (Bool × Nat)
  | cur, [] => if lastMsgId < cur then some (false, cur) else none
  | cur, ev :: rest =>
    if lastMsgId < cur then some (false, cur)
    else
      match ev with
      | WaitEv.timeout => some (true, cur)
      | WaitEv.notified id => condWaitLoop lastMsgId id rest

/-- Source: `self.wfile.write(b'data:\n\n')  # initial message`. -/
def initialFrame : String := "data:\n\n"

/-- Source: `msg = ': {}\n\n'.format(lastMsgId)  # keepalive`. -/
def keepaliveMsg (lastMsgId : Nat) : String := ": " ++ toString lastMsgId ++ "\n\n"

/-- Source: `msg = 'event: refresh\ndata: {}\n\n'.format(lastMsgId)`. -/
def refreshMsg (lastMsgId : Nat) : String :=
  "event: refresh\ndata: " ++ toString lastMsgId ++ "\n\n"

/-- One iteration of the `while True` loop of `handleRefresh`: capture
`lastMsgId = refreshId`, run the wait loop, then build the frame.  Returns
the frame text, the list of messages passed to `log.info` while building it
(the refresh branch runs `log.info('%r', msg)`, the keepalive branch logs
nothing), and the `refreshId` current when the iteration ends. -/
def handleRefreshIter (refreshId : Nat) (evs : List WaitEv) :
    Option (String × List String × Nat) :=
  match condWaitLoop refreshId refreshId evs with
  | none => none
  | some (true, cur) => some (keepaliveMsg refreshId, [], cur)
  | some (false, cur) => some (refreshMsg refreshId, [refreshMsg refreshId], cur)

/-- The `while True` loop of `handleRefresh`, run over a finite list of
per-iteration wait events.  Returns the emitted frames paired with their log
records, and the final `refreshId`; stops early if the thread is still
blocked when its modelled events run out. -/
def handleRefreshLoop : Nat → List (List WaitEv) → List (String × List String) × Nat
  | cur, [] => ([], cur)
  | cur, evs :: rest =>
    match handleRefreshIter cur evs with
    | none => ([], cur)
    | some (msg, logs, c) =>
      let r := handleRefreshLoop c rest
      ((msg, logs) :: r.1, r.2)

/-- All frames written on a `/refresh` stream (with their log records): the
initial `data:\n\n` frame (written with no accompanying log call), then the
loop's frames. -/
def handleRefreshFrames (cur : Nat) (iters : List (List WaitEv)) :
    List (String × List String) × Nat :=
  let r := handleRefreshLoop cur iters
  ((initialFrame, []) :: r.1, r.2)

/-- Source: the module-level `indexData` bytes literal (the fixed HTML/JS
index document), braces and quotes escaped. -/
def indexData : String :=
  "<!doctype html>\n<html>\n<script>\n    window.onload = function onload() \x7b\n        con" ++
  "st fileFrame = document.getElementById(\x27fileFrame\x27);\n        const errorElem = docu" ++
  "ment.getElementById(\x27error\x27);\n        const fileSrc = fileFrame.src;\n\n        fun" ++
  "ction setError(msg) \x7b\n            if (!msg) \x7b\n                errorElem.classList." ++
  "add(\x27hidden\x27);\n                errorElem.textContent = \x27\x27;\n                r" ++
  "eturn;\n            \x7d\n\n            errorElem.classList.remove(\x27hidden\x27);\n     " ++
  "       errorElem.textContent = msg;\n        \x7d\n\n        function createEventSource() " ++
  "\x7b\n            eventSource = new EventSource(\x27/refresh\x27);\n            eventSourc" ++
  "e.addEventListener(\x27open\x27, function onopen(event) \x7b\n                console.log(" ++
  "event);\n                setError(null);\n            \x7d);\n            eventSource.addE" ++
  "ventListener(\x27refresh\x27, function onrefresh(event) \x7b\n                console.log(" ++
  "event);\n                setError(null);\n                fileFrame.src = fileSrc;\n      " ++
  "      \x7d);\n            eventSource.addEventListener(\x27error\x27, function onerror(eve" ++
  "nt) \x7b\n                console.log(event);\n                setError(\x27connection los" ++
  "t: \x27 + Date());\n                event.target.close();\n\n                // try to re-" ++
  "establish connection\n                setTimeout(createEventSource, 5000);\n            \x7d" ++
  ");\n        \x7d\n\n        createEventSource();\n    \x7d;\n</script>\n<style>\n    body " ++
  "\x7b\n        margin: 0;\n        display: flex;\n        flex-flow: column nowrap;\n     " ++
  "   height: 100vh;\n    \x7d\n    #error \x7b\n        margin: 0;\n        background: red;" ++
  "\n        color: white;\n    \x7d\n    #error.hidden \x7b\n        display: none;\n    \x7d" ++
  "\n    iframe#fileFrame \x7b\n        border: 0;\n        flex: 1;\n    \x7d\n</style>\n   " ++
  " <head>\n        <title>File</title>\n    </head>\n    <body>\n        <pre id=\"error\" c" ++
  "lass=\"hidden\"></pre>\n        <iframe\n            id=\"fileFrame\"\n            src=\"/" ++
  "file\"\n        >\n        </iframe>\n    </body>\n</html>\n"

/-- HTTP status literals used by the handler (`HTTPStatus.OK`,
`HTTPStatus.NOT_FOUND`). -/
def HTTPStatus_OK : Nat := 200

/-- HTTP not-found status literal. -/
def HTTPStatus_NOT_FOUND : Nat := 404

/-- Observable response actions performed by `BaseHTTPRequestHandler` calls:
`send_response`, `send_header`, `end_headers`, `wfile.write`, `send_error`. -/
inductive HAction
  | sendResponse (status : Nat)
  | sendHeader (keyword : String) (value : Option String)
  | endHeaders
  | write (data : String)
  | sendError (status : Nat)
deriving DecidableEq

/-- Python `"%s" % value` applied to a string-or-None value: `None` renders
as the literal text `None`, as in `send_header`'s
`("%s: %s\r\n" % (keyword, value))`. -/
def pyStr : Option String → String
  | some s => s
  | none => "None"

/-- The header line that `send_header(keyword, value)` appends to the
response, `"%s: %s\r\n" % (keyword, value)`. -/
def headerLine (keyword : String) (value : Option String) : String :=
  keyword ++ ": " ++ pyStr value ++ "\r\n"

/-- Connection write budget: `some k` means the peer goes away after `k`
successful body writes (the next `wfile.write` raises `BrokenPipeError`);
`none` means the peer stays connected. -/
abbrev Wire := Option Nat

/-- Perform a sequence of `wfile.write` calls on a connection, accumulating
the action trace `tr`; a write to a gone peer raises `BrokenPipeError` and
nothing further happens. -/
def writeFrames : Wire → List HAction → List String → List HAction × Option PyError
  | _, tr, [] => (tr, none)
  | some 0, tr, _ :: _ => (tr, some PyError.brokenPipe)
  | some (n + 1), tr, s :: rest => writeFrames (some n) (tr ++ [HAction.write s]) rest
  | none, tr, s :: rest => writeFrames none (tr ++ [HAction.write s]) rest

/-- Source: `FileHandler.handleRefresh` as invoked on `GET /refresh`:
status 200, `Cache-Control: no-store`, `Content-Type: text/event-stream`,
then the initial frame and the loop's frames are written in order. -/
def handleRefresh (cur : Nat) (iters : List (List WaitEv)) (w : Wire) :
    List HAction × Option PyError :=
  writeFrames w
    [HAction.sendResponse HTTPStatus_OK,
     HAction.sendHeader "Cache-Control" (some "no-store"),
     HAction.sendHeader "Content-Type" (some "text/event-stream"),
     HAction.endHeaders]
    ((handleRefreshFrames cur iters).1.map Prod.fst)

/-- Source: the `self.path == '/'` branch of `do_GET`: status 200,
`Content-Type: text/html`, then the index document (no Cache-Control
header). -/
def serveIndex (w : Wire) : List HAction × Option PyError :=
  writeFrames w
    [HAction.sendResponse HTTPStatus_OK,
     HAction.sendHeader "Content-Type" (some "text/html"),
     HAction.endHeaders]
    [indexData]

/-- Source: the `self.path == '/file'` branch of `do_GET`: status 200,
`Cache-Control: no-store`, `Content-Type: FILE_MIMETYPE`, headers ended,
then `open(FILE_PATH)` + `shutil.copyfileobj`; `fileContent` is the outcome
of opening and reading the file, whose error (if any) is raised after the
headers have gone out. -/
def serveFile (mime : Option String) (fileContent : Except PyError String)
    (w : Wire) : List HAction × Option PyError :=
  match fileContent with
  | Except.error e =>
    ([HAction.sendResponse HTTPStatus_OK,
      HAction.sendHeader "Cache-Control" (some "no-store"),
      HAction.sendHeader "Content-Type" mime,
      HAction.endHeaders], some e)
  | Except.ok data =>
    writeFrames w
      [HAction.sendResponse HTTPStatus_OK,
       HAction.sendHeader "Cache-Control" (some "no-store"),
       HAction.sendHeader "Content-Type" mime,
       HAction.endHeaders]
      [data]

/-- Source: `self.send_error(HTTPStatus.NOT_FOUND)`; `send_error` writes the
error response to the peer, so it too raises `BrokenPipeError` when the peer
is gone. -/
def sendErrorResp (status : Nat) (w : Wire) : List HAction × Option PyError :=
  match w with
  | some 0 => ([], some PyError.brokenPipe)
  | _ => ([HAction.sendError status], none)

/-- A GET request together with the handler configuration and environment:
request path, configured `FILE_MIMETYPE`, outcome of reading `FILE_PATH`,
the current generation, and the wait events for a `/refresh` stream. -/
structure GetInput where
  path : String
  mime : Option String
  fileContent : Except PyError String
  refreshId : Nat
  iters : List (List WaitEv)

/-- The `try` body of `FileHandler.do_GET`: route dispatch in source order
(`/refresh`, `/`, `/file`, otherwise not-found). -/
def do_GET_body (inp : GetInput) (w : Wire) : List HAction × Option PyError :=
  if inp.path = "/refresh" then handleRefresh inp.refreshId inp.iters w
  else if inp.path = "/" then serveIndex w
  else if inp.path = "/file" then serveFile inp.mime inp.fileContent w
  else sendErrorResp HTTPStatus_NOT_FOUND w

/-- Source: `FileHandler.do_GET`: the whole body runs under
`try: ... except BrokenPipeError: return`, so a broken-pipe failure is
swallowed (clean return) and every other exception escapes. -/
def do_GET (inp : GetInput) (w : Wire) : List HAction × Option PyError :=
  let r := do_GET_body inp w
  match r.2 with
  | some PyError.brokenPipe => (r.1, none)
  | o => (r.1, o)

/-- Source: `main`'s MIME resolution: `if not args.mime:` replaces a missing
or empty `--mime` with `mimetypes.guess_type(filePath)` (which may itself be
`None`). -/
def resolveMime : Option String → Option String → Option String
  | none, guessed => guessed
  | some "", guessed => guessed
  | some m, _ => some m

/-- Server configuration assembled by `main`. -/
structure Config where
  filePath : String
  mime : Option String
  port : Nat
deriving DecidableEq

/-- Source: `main` after argument parsing: resolves the MIME type and stores
the configuration; there is no failure path (an unguessable MIME type leaves
`mime = None`). -/
def mainConfig (filePath : String) (cliMime guessed : Option String)
    (port : Nat) : Config :=
  { filePath := filePath, mime := resolveMime cliMime guessed, port := port }


/-! ## Helper lemmas -/

/-- Once the observed generation exceeds the baseline, the wait loop exits
immediately as a change. -/
theorem condWaitLoop_gt (lastMsgId cur : Nat) (h : lastMsgId < cur)
    (evs : List WaitEv) : condWaitLoop lastMsgId cur evs = some (false, cur) := by
  cases evs <;> simp [condWaitLoop, h]

/-- On a connected peer, the write sequence appends one `write` action per
frame. -/
theorem writeFrames_none (ss : List String) (tr : List HAction) :
    writeFrames none tr ss = (tr ++ ss.map HAction.write, none) := by
  induction ss generalizing tr with
  | nil => simp [writeFrames]
  | cons s rest ih => simp [writeFrames, ih]

/-- The write sequence only ever appends to the accumulated trace. -/
theorem writeFrames_extends (ss : List String) (w : Wire) (tr : List HAction) :
    ∃ t, (writeFrames w tr ss).1 = tr ++ t := by
  induction ss generalizing w tr with
  | nil => exact ⟨[], by simp [writeFrames]⟩
  | cons s rest ih =>
    match w with
    | some 0 => exact ⟨[], by simp [writeFrames]⟩
    | some (k + 1) =>
      obtain ⟨t, ht⟩ := ih (some k) (tr ++ [HAction.write s])
      exact ⟨HAction.write s :: t, by simp [writeFrames, ht]⟩
    | none =>
      obtain ⟨t, ht⟩ := ih none (tr ++ [HAction.write s])
      exact ⟨HAction.write s :: t, by simp [writeFrames, ht]⟩

/-- A write sequence cut short by a disconnected peer has written a prefix
of what a connected peer would have received, and nothing more. -/
theorem writeFrames_cut (ss : List String) (k : Nat) (tr : List HAction) :
    ∃ t, (writeFrames (some k) tr ss).1 ++ t = (writeFrames none tr ss).1 := by
  induction ss generalizing k tr with
  | nil => exact ⟨[], by simp [writeFrames]⟩
  | cons s rest ih =>
    match k with
    | 0 =>
      refine ⟨HAction.write s :: rest.map HAction.write, ?_⟩
      simp [writeFrames, writeFrames_none]
    | k + 1 =>
      obtain ⟨t, ht⟩ := ih k (tr ++ [HAction.write s])
      exact ⟨t, by simpa [writeFrames] using ht⟩

/-- The `except BrokenPipeError` wrapper changes only the outcome, never the
action trace. -/
theorem do_GET_fst (inp : GetInput) (w : Wire) :
    (do_GET inp w).1 = (do_GET_body inp w).1 := by
  unfold do_GET
  rcases h : (do_GET_body inp w).2 with _ | e
  · simp [h]
  · cases e <;> simp [h]

/-- Every frame produced by the stream loop is either a refresh frame logged
with its own text, or a keepalive frame with no log record. -/
theorem handleRefreshLoop_mem (iters : List (List WaitEv)) (cur : Nat)
    (p : String × List String) (hp : p ∈ (handleRefreshLoop cur iters).1) :
    (∃ g, p = (refreshMsg g, [refreshMsg g])) ∨ ∃ g, p = (keepaliveMsg g, []) := by
  induction iters generalizing cur with
  | nil => simp [handleRefreshLoop] at hp
  | cons evs rest ih =>
    unfold handleRefreshLoop handleRefreshIter at hp
    rcases h : condWaitLoop cur cur evs with _ | ⟨b, c⟩
    · rw [h] at hp
      simp at hp
    · rw [h] at hp
      cases b
      · simp at hp
        rcases hp with hp | hp
        · exact Or.inl ⟨cur, hp⟩
        · exact ih c hp
      · simp at hp
        rcases hp with hp | hp
        · exact Or.inr ⟨cur, hp⟩
        · exact ih c hp

/-! ## Claim theorems -/

/-- Claim C1 counterexample: with baseline generation 65535, a wakeup
observing the wrapped generation 0 — a value different from the baseline —
does not end the wait as a change (the loop keeps waiting, and a subsequent
timeout ends the iteration as a timeout), because the source compares with
`refreshId <= lastMsgId`, not inequality. -/
theorem c1_counterexample :
    condWaitLoop 65535 65535 [WaitEv.notified 0] ≠ some (false, 0) ∧
    condWaitLoop 65535 65535 [WaitEv.notified 0, WaitEv.timeout] = some (true, 0) := by
  decide

/-- Claim C1 (amended): the wait treats the state as changed exactly when
the observed generation is numerically greater than the baseline `g`: a
wakeup seeing `id > g` ends the wait as a change carrying `id`, while a
wakeup seeing `id ≤ g` — including values that wrapped around to below the
baseline, and the baseline itself — leaves the loop waiting. -/
theorem c1_wait_change_iff_gt (g id : Nat) (evs : List WaitEv) :
    condWaitLoop g g (WaitEv.notified id :: evs) =
      if g < id then some (false, id) else condWaitLoop g id evs := by
  have h1 : condWaitLoop g g (WaitEv.notified id :: evs) = condWaitLoop g id evs := by
    simp [condWaitLoop]
  rw [h1]
  by_cases h : g < id
  · rw [if_pos h, condWaitLoop_gt g id h evs]
  · rw [if_neg h]

/-- Claim C2 counterexample: with baseline generation 5, after the counter
advances to 6 the emitted refresh frame carries the stale baseline value 5,
not the new generation 6 — the source formats `lastMsgId`, captured before
the wait, into the frame. -/
theorem c2_counterexample :
    handleRefreshIter 5 [WaitEv.notified 6] =
      some ("event: refresh\ndata: 5\n\n", ["event: refresh\ndata: 5\n\n"], 6) ∧
    "event: refresh\ndata: 5\n\n" ≠ "event: refresh\ndata: 6\n\n" := by
  decide

/-- Claim C2 (amended): whenever the wait ends because the generation
advanced (not by timeout), the handler emits exactly one named refresh event
frame whose data payload is the iteration's baseline (pre-advance)
generation as text, and the next iteration uses the new generation as its
baseline. -/
theorem c2_refresh_frame_uses_baseline (g c : Nat) (evs : List WaitEv)
    (h : condWaitLoop g g evs = some (false, c)) (rest : List (List WaitEv)) :
    handleRefreshIter g evs = some (refreshMsg g, [refreshMsg g], c) ∧
    refreshMsg g = "event: refresh\ndata: " ++ toString g ++ "\n\n" ∧
    handleRefreshLoop g (evs :: rest) =
      ((refreshMsg g, [refreshMsg g]) :: (handleRefreshLoop c rest).1,
        (handleRefreshLoop c rest).2) := by
  have h1 : handleRefreshIter g evs = some (refreshMsg g, [refreshMsg g], c) := by
    simp [handleRefreshIter, h]
  exact ⟨h1, rfl, by simp [handleRefreshLoop, h1]⟩

/-- Claim C2 witness: the amended statement at baseline 5 advancing to 6. -/
theorem c2_refresh_frame_uses_baseline_witness :
    handleRefreshIter 5 [WaitEv.notified 6] = some (refreshMsg 5, [refreshMsg 5], 6) ∧
    refreshMsg 5 = "event: refresh\ndata: " ++ toString 5 ++ "\n\n" ∧
    handleRefreshLoop 5 ([WaitEv.notified 6] :: []) =
      ((refreshMsg 5, [refreshMsg 5]) :: (handleRefreshLoop 6 []).1,
        (handleRefreshLoop 6 []).2) :=
  c2_refresh_frame_uses_baseline 5 6 [WaitEv.notified 6] (by decide) []

/-- Claim C3: the generation counter starts at 0, every SIGHUP sets it to
`(previous + 1) mod 65536` — a value in `[0, 65536)` that differs from the
previous one — and after any sequence of triggers it lies in `[0, 65536)`. -/
theorem c3_generation_counter :
    refreshId0 = 0 ∧
    (∀ r, handleSighup r = (r + 1) % 65536) ∧
    (∀ r, handleSighup r < 65536) ∧
    (∀ r, handleSighup r ≠ r) ∧
    (∀ n, runTriggers n < 65536) := by
  refine ⟨rfl, fun r => rfl, fun r => Nat.mod_lt _ (by decide), fun r => ?_,
    fun n => ?_⟩
  · intro h
    unfold handleSighup REFRESH_ID_MAX at h
    norm_num at h
    omega
  · induction n with
    | zero => decide
    | succ k ih => exact Nat.mod_lt _ (by decide)

/-- Claim C4: an iteration whose first wait event is the 60-second timeout
(no generation advance arrived) ends as timed out, emits a keepalive frame
that is a comment — its first character is `:`, it is not a named event —
carrying the iteration's baseline generation, and the loop then continues
with the same baseline; the wait's timeout literal is 60 seconds. -/
theorem c4_keepalive_on_timeout (g : Nat) (evs : List WaitEv)
    (rest : List (List WaitEv)) :
    handleRefreshIter g (WaitEv.timeout :: evs) = some (keepaliveMsg g, [], g) ∧
    keepaliveMsg g = ": " ++ toString g ++ "\n\n" ∧
    (keepaliveMsg g).data.head? = some ':' ∧
    condWaitTimeout = 60 ∧
    handleRefreshLoop g ((WaitEv.timeout :: evs) :: rest) =
      ((keepaliveMsg g, []) :: (handleRefreshLoop g rest).1,
        (handleRefreshLoop g rest).2) := by
  have h0 : condWaitLoop g g (WaitEv.timeout :: evs) = some (true, g) := by
    simp [condWaitLoop]
  have h1 : handleRefreshIter g (WaitEv.timeout :: evs) =
      some (keepaliveMsg g, [], g) := by
    simp [handleRefreshIter, h0]
  refine ⟨h1, rfl, ?_, rfl, by simp [handleRefreshLoop, h1]⟩
  show ((": " ++ toString g) ++ "\n\n").data.head? = some ':'
  rw [String.data_append, String.data_append]
  rfl

/-- The `/file` response always carries the `Cache-Control: no-store`
header, whatever the file read outcome or peer state. -/
theorem serveFile_cache_control (mime : Option String)
    (fc : Except PyError String) (w : Wire) :
    HAction.sendHeader "Cache-Control" (some "no-store") ∈ (serveFile mime fc w).1 := by
  rcases fc with e | data
  · exact List.mem_cons_of_mem _ (List.mem_cons_self _ _)
  · obtain ⟨t, ht⟩ := writeFrames_extends [data] w
      [HAction.sendResponse HTTPStatus_OK,
       HAction.sendHeader "Cache-Control" (some "no-store"),
       HAction.sendHeader "Content-Type" mime,
       HAction.endHeaders]
    show HAction.sendHeader "Cache-Control" (some "no-store") ∈
      (writeFrames w
        [HAction.sendResponse HTTPStatus_OK,
         HAction.sendHeader "Cache-Control" (some "no-store"),
         HAction.sendHeader "Content-Type" mime,
         HAction.endHeaders] [data]).1
    rw [ht]
    simp

/-- The `/refresh` response always carries the `Cache-Control: no-store`
header, whatever the stream events or peer state. -/
theorem handleRefresh_cache_control (cur : Nat) (iters : List (List WaitEv))
    (w : Wire) :
    HAction.sendHeader "Cache-Control" (some "no-store") ∈
      (handleRefresh cur iters w).1 := by
  obtain ⟨t, ht⟩ := writeFrames_extends
    ((handleRefreshFrames cur iters).1.map Prod.fst) w
    [HAction.sendResponse HTTPStatus_OK,
     HAction.sendHeader "Cache-Control" (some "no-store"),
     HAction.sendHeader "Content-Type" (some "text/event-stream"),
     HAction.endHeaders]
  show HAction.sendHeader "Cache-Control" (some "no-store") ∈
    (writeFrames w
      [HAction.sendResponse HTTPStatus_OK,
       HAction.sendHeader "Cache-Control" (some "no-store"),
       HAction.sendHeader "Content-Type" (some "text/event-stream"),
       HAction.endHeaders]
      ((handleRefreshFrames cur iters).1.map Prod.fst)).1
  rw [ht]
  simp

/-- Claim C5: for every request and every peer state, a write failure caused
by the peer having gone away (`BrokenPipeError`) never escapes `do_GET` —
the `except BrokenPipeError: return` swallows it — and a connection cut
after `k` successful writes has received a prefix of the full response and
nothing else (the handler stops silently, emitting no further action). -/
theorem c5_peer_gone_silent (inp : GetInput) (w : Wire) (k : Nat) :
    (do_GET inp w).2 ≠ some PyError.brokenPipe ∧
    ∃ t, (do_GET inp (some k)).1 ++ t = (do_GET inp none).1 := by
  constructor
  · unfold do_GET
    rcases h : (do_GET_body inp w).2 with _ | e
    · simp [h]
    · cases e <;> simp [h]
  · rw [do_GET_fst, do_GET_fst]
    unfold do_GET_body
    by_cases h1 : inp.path = "/refresh"
    · rw [if_pos h1, if_pos h1]
      unfold handleRefresh
      exact writeFrames_cut _ _ _
    · rw [if_neg h1, if_neg h1]
      by_cases h2 : inp.path = "/"
      · rw [if_pos h2, if_pos h2]
        unfold serveIndex
        exact writeFrames_cut _ _ _
      · rw [if_neg h2, if_neg h2]
        by_cases h3 : inp.path = "/file"
        · rw [if_pos h3, if_pos h3]
          unfold serveFile
          rcases inp.fileContent with e | data
          · exact ⟨[], by simp⟩
          · exact writeFrames_cut _ _ _
        · rw [if_neg h3, if_neg h3]
          unfold sendErrorResp
          cases k with
          | zero => exact ⟨[HAction.sendError HTTPStatus_NOT_FOUND], rfl⟩
          | succ k => exact ⟨[], by simp⟩

/-- Claim C6 counterexample: a failing read on `GET /file` does not produce
a server-error response — the 200 status line and the headers have already
been sent when `open` raises, no 5xx action is ever emitted, and the
exception escapes the handler uncaught. -/
theorem c6_counterexample :
    do_GET ⟨"/file", some "application/pdf", Except.error PyError.osError, 0, []⟩
        none =
      ([HAction.sendResponse 200,
        HAction.sendHeader "Cache-Control" (some "no-store"),
        HAction.sendHeader "Content-Type" (some "application/pdf"),
        HAction.endHeaders], some PyError.osError) ∧
    HAction.sendError 500 ∉
      (do_GET ⟨"/file", some "application/pdf", Except.error PyError.osError, 0, []⟩
        none).1 ∧
    HAction.sendResponse 500 ∉
      (do_GET ⟨"/file", some "application/pdf", Except.error PyError.osError, 0, []⟩
        none).1 := by
  decide

/-- Claim C6 (amended): if opening or reading the served file fails during
`GET /file`, the exception (any non-broken-pipe error) escapes the handler
uncaught after the 200 status and headers have already been emitted; no
server-error response is sent and the read is not retried. -/
theorem c6_file_error_escapes (inp : GetInput) (e : PyError) (w : Wire)
    (hpath : inp.path = "/file") (hfc : inp.fileContent = Except.error e)
    (hbp : e ≠ PyError.brokenPipe) :
    do_GET inp w =
      ([HAction.sendResponse HTTPStatus_OK,
        HAction.sendHeader "Cache-Control" (some "no-store"),
        HAction.sendHeader "Content-Type" inp.mime,
        HAction.endHeaders], some e) := by
  have hb : do_GET_body inp w =
      ([HAction.sendResponse HTTPStatus_OK,
        HAction.sendHeader "Cache-Control" (some "no-store"),
        HAction.sendHeader "Content-Type" inp.mime,
        HAction.endHeaders], some e) := by
    unfold do_GET_body
    rw [hpath, if_neg (by decide), if_neg (by decide), if_pos rfl]
    unfold serveFile
    rw [hfc]
  unfold do_GET
  rw [hb]
  cases e with
  | brokenPipe => exact absurd rfl hbp
  | osError => rfl

/-- Claim C6 witness: the amended statement at a concrete failing read. -/
theorem c6_file_error_escapes_witness :
    do_GET ⟨"/file", none, Except.error PyError.osError, 3, []⟩ none =
      ([HAction.sendResponse HTTPStatus_OK,
        HAction.sendHeader "Cache-Control" (some "no-store"),
        HAction.sendHeader "Content-Type" none,
        HAction.endHeaders], some PyError.osError) :=
  c6_file_error_escapes ⟨"/file", none, Except.error PyError.osError, 3, []⟩
    PyError.osError none rfl rfl (by decide)

/-- Claim C7: a GET request whose path is none of `/`, `/file`, `/refresh`
is answered with the standard not-found response. -/
theorem c7_not_found (inp : GetInput)
    (h1 : inp.path ≠ "/") (h2 : inp.path ≠ "/file") (h3 : inp.path ≠ "/refresh") :
    do_GET inp none = ([HAction.sendError HTTPStatus_NOT_FOUND], none) := by
  have hb : do_GET_body inp none = ([HAction.sendError HTTPStatus_NOT_FOUND], none) := by
    unfold do_GET_body
    rw [if_neg h3, if_neg h1, if_neg h2]
    rfl
  unfold do_GET
  rw [hb]

/-- Claim C7 witness: a concrete unrecognized path. -/
theorem c7_not_found_witness :
    do_GET ⟨"/nope", none, Except.ok "x", 0, []⟩ none =
      ([HAction.sendError HTTPStatus_NOT_FOUND], none) :=
  c7_not_found ⟨"/nope", none, Except.ok "x", 0, []⟩
    (by decide) (by decide) (by decide)

/-- Claim C8 counterexample: with no MIME type supplied and none guessable,
the resolved type is `None`, and the `/file` response then carries a
`Content-Type` header whose rendered value is the literal text `None` — a
header that is present and non-empty, not an empty or absent content
type. -/
theorem c8_counterexample :
    resolveMime none none = none ∧
    (do_GET ⟨"/file", resolveMime none none, Except.ok "FILEDATA", 0, []⟩ none).1 =
      [HAction.sendResponse 200,
       HAction.sendHeader "Cache-Control" (some "no-store"),
       HAction.sendHeader "Content-Type" none,
       HAction.endHeaders,
       HAction.write "FILEDATA"] ∧
    headerLine "Content-Type" none = "Content-Type: None\r\n" ∧
    headerLine "Content-Type" none ≠ "Content-Type: \r\n" := by
  decide

/-- Claim C8 (amended): when no MIME type is supplied and none can be
guessed, startup does not hard-fail — `main` stores `mime = None` and
proceeds — and `GET /file` then succeeds with a `Content-Type` header whose
value renders as the literal text `None` (Python's `%s` formatting of
`None`), rather than an empty or absent content type. -/
theorem c8_unguessable_mime (fp data : String) (p g : Nat)
    (it : List (List WaitEv)) :
    mainConfig fp none none p = ⟨fp, none, p⟩ ∧
    do_GET ⟨"/file", (mainConfig fp none none p).mime, Except.ok data, g, it⟩ none =
      ([HAction.sendResponse HTTPStatus_OK,
        HAction.sendHeader "Cache-Control" (some "no-store"),
        HAction.sendHeader "Content-Type" none,
        HAction.endHeaders,
        HAction.write data], none) ∧
    headerLine "Content-Type" none = "Content-Type: None\r\n" :=
  ⟨rfl, rfl, rfl⟩

/-- Claim C9 counterexample: on a stream whose first iteration times out,
both the initial frame and the keepalive frame are emitted with an empty
log record — they are not recorded to the operational log, so not every
emitted frame is logged. -/
theorem c9_counterexample :
    (handleRefreshFrames 0 [[WaitEv.timeout]]).1 =
      [(initialFrame, []), (keepaliveMsg 0, [])] ∧
    (initialFrame, ([] : List String)) ∈ (handleRefreshFrames 0 [[WaitEv.timeout]]).1 ∧
    (keepaliveMsg 0, ([] : List String)) ∈ (handleRefreshFrames 0 [[WaitEv.timeout]]).1 := by
  decide

/-- Claim C9 (amended): only refresh event frames are recorded to the
operational log (each logged once, with its own text, at informational
severity); the initial frame on connect and every keepalive frame are
emitted with no log record. -/
theorem c9_only_refresh_frames_logged (cur : Nat) (iters : List (List WaitEv))
    (p : String × List String) (hp : p ∈ (handleRefreshFrames cur iters).1) :
    (∃ g, p = (refreshMsg g, [refreshMsg g])) ∨
      (p.2 = [] ∧ (p.1 = initialFrame ∨ ∃ g, p.1 = keepaliveMsg g)) := by
  have hp2 : p = (initialFrame, []) ∨ p ∈ (handleRefreshLoop cur iters).1 := by
    simpa [handleRefreshFrames] using hp
  rcases hp2 with hp2 | hp2
  · subst hp2
    exact Or.inr ⟨rfl, Or.inl rfl⟩
  · rcases handleRefreshLoop_mem _ _ _ hp2 with ⟨g, hg⟩ | ⟨g, hg⟩
    · exact Or.inl ⟨g, hg⟩
    · subst hg
      exact Or.inr ⟨rfl, Or.inr ⟨g, rfl⟩⟩

/-- Claim C9 witness: the amended statement for the refresh frame of a
stream that observes one advance. -/
theorem c9_only_refresh_frames_logged_witness :
    (∃ g, ((refreshMsg 0, [refreshMsg 0]) : String × List String) =
      (refreshMsg g, [refreshMsg g])) ∨
      (((refreshMsg 0, [refreshMsg 0]) : String × List String).2 = [] ∧
        (((refreshMsg 0, [refreshMsg 0]) : String × List String).1 = initialFrame ∨
          ∃ g, ((refreshMsg 0, [refreshMsg 0]) : String × List String).1 =
            keepaliveMsg g)) :=
  c9_only_refresh_frames_logged 0 [[WaitEv.notified 1]]
    (refreshMsg 0, [refreshMsg 0]) (by decide)

/-- Claim C10: every `GET /` request is answered with status 200, content
type `text/html` and the fixed index document, and carries no
`Cache-Control` header — unlike the `/file` and `/refresh` responses, which
both send `Cache-Control: no-store`. -/
theorem c10_index_no_cache_control (i1 i2 i3 : GetInput) (w : Wire)
    (h1 : i1.path = "/") (h2 : i2.path = "/file") (h3 : i3.path = "/refresh") :
    do_GET i1 none =
      ([HAction.sendResponse HTTPStatus_OK,
        HAction.sendHeader "Content-Type" (some "text/html"),
        HAction.endHeaders,
        HAction.write indexData], none) ∧
    (∀ v, HAction.sendHeader "Cache-Control" v ∉ (do_GET i1 none).1) ∧
    HAction.sendHeader "Cache-Control" (some "no-store") ∈ (do_GET i2 w).1 ∧
    HAction.sendHeader "Cache-Control" (some "no-store") ∈ (do_GET i3 w).1 := by
  have hb : do_GET i1 none =
      ([HAction.sendResponse HTTPStatus_OK,
        HAction.sendHeader "Content-Type" (some "text/html"),
        HAction.endHeaders,
        HAction.write indexData], none) := by
    have hbody : do_GET_body i1 none =
        ([HAction.sendResponse HTTPStatus_OK,
          HAction.sendHeader "Content-Type" (some "text/html"),
          HAction.endHeaders,
          HAction.write indexData], none) := by
      unfold do_GET_body
      rw [h1, if_neg (by decide), if_pos rfl]
      unfold serveIndex
      rw [writeFrames_none]
      rfl
    unfold do_GET
    rw [hbody]
  refine ⟨hb, ?_, ?_, ?_⟩
  · intro v hv
    rw [hb] at hv
    simp only [List.mem_cons, List.not_mem_nil, or_false] at hv
    rcases hv with h | h | h | h
    · exact HAction.noConfusion h
    · injection h with hk hval
      exact absurd hk (by decide)
    · exact HAction.noConfusion h
    · exact HAction.noConfusion h
  · rw [do_GET_fst]
    unfold do_GET_body
    rw [h2, if_neg (by decide), if_neg (by decide), if_pos rfl]
    exact serveFile_cache_control _ _ _
  · rw [do_GET_fst]
    unfold do_GET_body
    rw [h3, if_pos rfl]
    exact handleRefresh_cache_control _ _ _

/-- Claim C10 witness: the index response and the `/file` cache header at
concrete inputs. -/
theorem c10_index_no_cache_control_witness :
    do_GET ⟨"/", none, Except.ok "x", 0, []⟩ none =
      ([HAction.sendResponse HTTPStatus_OK,
        HAction.sendHeader "Content-Type" (some "text/html"),
        HAction.endHeaders,
        HAction.write indexData], none) ∧
    HAction.sendHeader "Cache-Control" (some "no-store") ∈
      (do_GET ⟨"/file", none, Except.ok "x", 0, []⟩ none).1 :=
  ⟨(c10_index_no_cache_control ⟨"/", none, Except.ok "x", 0, []⟩
      ⟨"/file", none, Except.ok "x", 0, []⟩ ⟨"/refresh", none, Except.ok "x", 0, []⟩
      none rfl rfl rfl).1,
    (c10_index_no_cache_control ⟨"/", none, Except.ok "x", 0, []⟩
      ⟨"/file", none, Except.ok "x", 0, []⟩ ⟨"/refresh", none, Except.ok "x", 0, []⟩
      none rfl rfl rfl).2.2.1⟩

end Autorefresh
